import Mathlib

/-!
Verification of the TradingAgents data-retrieval layer
(`tradingagents/dataflows/interface.py` and
`tradingagents/dataflows/finnhub_utils.py`).

Modelling conventions used throughout this development:

* Python strings are Lean `String`s.  Python compares strings
  lexicographically by code point; `strLe` below implements exactly that
  comparison on the underlying character list (the built-in `String` order
  of Lean is propositionally the same but does not reduce in the kernel,
  so we keep the executable form).
* A Python dict that maps date keys to record lists is an association
  list `List (String × List α)` in snapshot insertion order.
* A remote API call that may raise is an `Option` value: `none` models an
  exception escaping the call, `some r` models a normal return of `r`.
  For endpoints whose JSON response is a dict that may or may not carry a
  given field, the payload is a further `Option`.
* Fallible interface functions that `raise` are `Except String α`.
-/

/-- Lexicographic order on character lists by code point, the comparison
Python uses for its `<=` on strings. -/
def listLe : List Char → List Char → Bool
  | [], _ => true
  | _ :: _, [] => false
  | a :: as, b :: bs =>
    if a.toNat < b.toNat then true
    else if b.toNat < a.toNat then false
    else listLe as bs

/-- Python string comparison `a <= b` (lexicographic by code point). -/
def strLe (a b : String) : Bool := listLe a.data b.data

/-- Python string slice `s[:n]` (first `n` characters). -/
def strTake (s : String) (n : Nat) : String := String.mk (s.data.take n)

/-- Proposition: the string `sub` occurs contiguously inside `s`. -/
def ContainsSub (s sub : String) : Prop := ∃ a b, s = a ++ sub ++ b

/-- Proposition: the string `s` begins with the string `p`. -/
def StartsWith (s p : String) : Prop := ∃ t, s = p ++ t

theorem containsSub_self (s : String) : ContainsSub s s :=
  ⟨"", "", by simp⟩

theorem containsSub_append_left {s sub : String} (t : String)
    (h : ContainsSub s sub) : ContainsSub (t ++ s) sub := by
  obtain ⟨a, b, rfl⟩ := h
  exact ⟨t ++ a, b, by simp [String.append_assoc]⟩

theorem containsSub_append_right {s sub : String} (t : String)
    (h : ContainsSub s sub) : ContainsSub (s ++ t) sub := by
  obtain ⟨a, b, rfl⟩ := h
  exact ⟨a, b ++ t, by simp [String.append_assoc]⟩

theorem startsWith_containsSub {s p : String} (h : StartsWith s p) :
    ContainsSub s p := by
  obtain ⟨t, rfl⟩ := h
  exact ⟨"", t, by simp⟩

/-- First-seen-key duplicate filter, with the accumulator of already seen
keys made explicit.  This is the loop shape used by the source: iterate
the records in order, skip a record whose key is already in the seen
collection, otherwise emit the record and remember its key. -/
def dedupByAux {α β : Type} [DecidableEq β] (key : α → β) (seen : List β) :
    List α → List α
  | [] => []
  | x :: xs =>
    if key x ∈ seen then dedupByAux key seen xs
    else x :: dedupByAux key (key x :: seen) xs

/-- First-seen-key duplicate filter starting from an empty seen set.
With `key` the identity it models the cached-path loops (membership test
`entry not in seen_dicts`, `interface.py` lines 139-145 and 216-222);
with a composite key it models the remote insider-transaction loop
(`interface.py` lines 186-200). -/
def dedupBy {α β : Type} [DecidableEq β] (key : α → β) (xs : List α) :
    List α :=
  dedupByAux key [] xs

/-- Concatenation of the rendering of each record, in order; models the
accumulating `result_str +=` loops of the source. -/
def concatRender {α : Type} (render : α → String) : List α → String
  | [] => ""
  | x :: xs => render x ++ concatRender render xs

/-- CacheStore query, from `finnhub_utils.get_data_in_range` (lines
77-115).  The source locates a snapshot file from
(ticker, data_type, data_dir, period) and parses it as JSON; the
`snapshot` parameter is the parsed content of that file, `none` when the
file is absent or fails to parse (both return an empty dict in the
source).  The filter keeps exactly the keys inside the closed interval
with a non-empty record list. -/
def get_data_in_range {α : Type} (snapshot : Option (List (String × List α)))
    (start_date end_date : String) : List (String × List α) :=
  match snapshot with
  | none => []
  | some data =>
    data.filter (fun kv =>
      strLe start_date kv.1 && strLe kv.1 end_date && decide (0 < kv.2.length))

/-- Configuration fields read by every retrieval function: the resolved
credential (`config.get("finnhub_api_key") or os.getenv("FINNHUB_API_KEY")`,
`none` when both are absent or empty, hence falsy) and the
`use_finnhub_api` feature flag (already defaulted to `True` by
`config.get`). -/
structure FinnhubConfig where
  finnhub_api_key : Option String
  use_finnhub_api : Bool

/-- Condition guarding every remote attempt:
`if finnhub_api_key and config.get("use_finnhub_api", True)`. -/
def routingOn (config : FinnhubConfig) : Bool :=
  config.finnhub_api_key.isSome && config.use_finnhub_api

/-- One article of the remote company-news response; `dateStr` is the
YYYY-MM-DD rendering of the article timestamp computed by the source. -/
structure NewsArticle where
  headline : String
  summary : String
  dateStr : String
deriving DecidableEq

/-- One record of a cached news snapshot (the date lives in the key). -/
structure CachedNewsRec where
  headline : String
  summary : String
deriving DecidableEq

/-- Rendering of one remote news article, `interface.py` lines 56-61. -/
def formatRemoteNews : List NewsArticle → String
  | [] => ""
  | a :: rest =>
    "### " ++ a.headline ++ " (" ++ a.dateStr ++ ")\n" ++ a.summary ++ "\n\n"
      ++ formatRemoteNews rest

/-- Rendering of the records of one cached day, `interface.py` lines 77-81. -/
def formatCachedNewsDay (day : String) : List CachedNewsRec → String
  | [] => ""
  | e :: rest =>
    "### " ++ e.headline ++ " (" ++ day ++ ")\n" ++ e.summary ++ "\n\n"
      ++ formatCachedNewsDay day rest

/-- Rendering of the cached news mapping, `interface.py` lines 73-81
(days with an empty record list are skipped by the `continue`). -/
def formatCachedNews : List (String × List CachedNewsRec) → String
  | [] => ""
  | (day, recs) :: rest =>
    (if recs.length = 0 then "" else formatCachedNewsDay day recs)
      ++ formatCachedNews rest

/-- Cache-fallback tail of `get_finnhub_news`, `interface.py` lines 67-83. -/
def newsCachePath (ticker before curr_date : String)
    (snapshot : Option (List (String × List CachedNewsRec))) : String :=
  let result := get_data_in_range snapshot before curr_date
  if result.length = 0 then
    "No news data available for " ++ ticker ++ " from " ++ before ++ " to "
      ++ curr_date
  else
    "## " ++ ticker ++ " Cached News from " ++ before ++ " to " ++ curr_date
      ++ ":\n" ++ formatCachedNews result

/-- Retrieval-with-fallback for company news, `interface.py` lines 19-83.
The `before` argument is the YYYY-MM-DD rendering of
`curr_date - look_back_days` computed by the source; `remote` is the
outcome of `api.get_company_news` (`none` models an exception inside the
`try` block); `snapshot` is the parsed cache file content handed to
`get_data_in_range`.  The remote report is returned only when routing is
enabled and the article list is truthy (non-empty); every other case
falls through to the cache path. -/
def get_finnhub_news (ticker before curr_date : String)
    (config : FinnhubConfig) (remote : Option (List NewsArticle))
    (snapshot : Option (List (String × List CachedNewsRec))) : String :=
  let remoteReport : Option String :=
    if routingOn config then
      match remote with
      | some news_data =>
        if news_data.length ≠ 0 then
          some ("## " ++ ticker ++ " Real-time News from " ++ before ++ " to "
            ++ curr_date ++ ":\n" ++ formatRemoteNews news_data)
        else none
      | none => none
    else none
  match remoteReport with
  | some s => s
  | none => newsCachePath ticker before curr_date snapshot

/-- One insider-sentiment record (`year`, `month`, `change`, `mspr`).
Numeric fields are modelled as integers; the claims only compare them
for equality and distinctness. -/
structure SentiRec where
  year : Int
  month : Int
  change : Int
  mspr : Int
deriving DecidableEq

/-- Trailer sentence appended to every insider-sentiment report,
`interface.py` lines 128 and 150. -/
def sentiFooter : String :=
  "The change field refers to the net buying/selling from all insiders\x27 transactions. The mspr field refers to monthly share purchase ratio."

/-- Rendering of one insider-sentiment record; identical on the remote
path (lines 121-123, via defensive `.get`) and cached path (line 144). -/
def formatSentiRec (e : SentiRec) : String :=
  "### " ++ toString e.year ++ "-" ++ toString e.month ++ ":\n"
    ++ "Change: " ++ toString e.change ++ "\n"
    ++ "Monthly Share Purchase Ratio: " ++ toString e.mspr ++ "\n\n"

/-- Cache-fallback tail of `get_finnhub_company_insider_sentiment`,
`interface.py` lines 133-151: range-filter the snapshot, report no-data
when empty, otherwise render the day-flattened record stream through the
first-seen full-equality duplicate filter (`entry not in seen_dicts`). -/
def sentiCachePath (ticker before curr_date : String)
    (snapshot : Option (List (String × List SentiRec))) : String :=
  let data := get_data_in_range snapshot before curr_date
  if data.length = 0 then
    "No insider sentiment data available for " ++ ticker ++ " from " ++ before
      ++ " to " ++ curr_date
  else
    "## " ++ ticker ++ " Cached Insider Sentiment from " ++ before ++ " to "
      ++ curr_date ++ ":\n"
      ++ concatRender formatSentiRec
        (dedupBy (fun e => e) ((data.map Prod.snd).flatten))
      ++ sentiFooter

/-- Retrieval-with-fallback for insider sentiment, `interface.py` lines
86-151.  `remote` is the outcome of `api.get_insider_sentiment`:
`none` models an exception, `some none` a response dict that is falsy or
lacks the data field (the guard is
`if sentiment_data and ... in sentiment_data` on the data key, and a dict carrying
the data field is necessarily truthy, so the guard holds exactly when
the field is present), `some (some entries)` a response whose data field
holds `entries` — the guard holds even when `entries` is empty, and the
remote report is returned with no entries rendered. -/
def get_finnhub_company_insider_sentiment (ticker before curr_date : String)
    (config : FinnhubConfig) (remote : Option (Option (List SentiRec)))
    (snapshot : Option (List (String × List SentiRec))) : String :=
  let remoteReport : Option String :=
    if routingOn config then
      match remote with
      | some (some entries) =>
        some ("## " ++ ticker ++ " Real-time Insider Sentiment from " ++ before
          ++ " to " ++ curr_date ++ ":\n"
          ++ concatRender formatSentiRec entries ++ sentiFooter)
      | _ => none
    else none
  match remoteReport with
  | some s => s
  | none => sentiCachePath ticker before curr_date snapshot

/-- One insider-transaction record.  Numeric fields are modelled as
integers; the claims only compare them for equality and distinctness. -/
structure TransRec where
  filingDate : String
  name : String
  change : Int
  share : Int
  transactionPrice : Int
  transactionCode : String
deriving DecidableEq

/-- Composite duplicate key of the remote insider-transaction loop,
`interface.py` line 192: the f-string joining the defensively fetched
filingDate, name and change fields with a dash separator. -/
def transKey (e : TransRec) : String :=
  e.filingDate ++ "-" ++ e.name ++ "-" ++ toString e.change

/-- Trailer of the remote insider-transaction report, line 205. -/
def transFooterRemote : String :=
  "The change field reflects the variation in share count—here a negative number indicates a reduction in holdings—while share specifies the total number of shares involved. The transactionPrice denotes the per-share price at which the trade was executed, and transactionDate marks when the transaction occurred. The name field identifies the insider making the trade, and transactionCode (e.g., S for sale) clarifies the nature of the transaction. FilingDate records when the transaction was officially reported, and the unique id links to the specific SEC filing, as indicated by the source."

/-- Trailer of the cached insider-transaction report, line 227. -/
def transFooterCached : String :=
  transFooterRemote ++ " Additionally, the symbol ties the transaction to a particular company, isDerivative flags whether the trade involves derivative securities, and currency notes the currency context of the transaction."

/-- Rendering of one remote insider-transaction record, lines 195-199. -/
def formatRemoteTrans (e : TransRec) : String :=
  "### Filing Date: " ++ e.filingDate ++ ", " ++ e.name ++ ":\n"
    ++ "Change: " ++ toString e.change ++ "\n"
    ++ "Shares: " ++ toString e.share ++ "\n"
    ++ "Transaction Price: " ++ toString e.transactionPrice ++ "\n"
    ++ "Transaction Code: " ++ e.transactionCode ++ "\n\n"

/-- Rendering of one cached insider-transaction record, line 221 (note
the missing space after `Change:` in the source f-string). -/
def formatCachedTrans (e : TransRec) : String :=
  "### Filing Date: " ++ e.filingDate ++ ", " ++ e.name ++ ":\nChange:"
    ++ toString e.change ++ "\nShares: " ++ toString e.share
    ++ "\nTransaction Price: " ++ toString e.transactionPrice
    ++ "\nTransaction Code: " ++ e.transactionCode ++ "\n\n"

/-- Cache-fallback tail of `get_finnhub_company_insider_transactions`,
`interface.py` lines 210-228: the duplicate filter is the first-seen
full-equality membership test `entry not in seen_dicts`, not the
composite key of the remote path. -/
def transCachePath (ticker before curr_date : String)
    (snapshot : Option (List (String × List TransRec))) : String :=
  let data := get_data_in_range snapshot before curr_date
  if data.length = 0 then
    "No insider transaction data available for " ++ ticker ++ " from "
      ++ before ++ " to " ++ curr_date
  else
    "## " ++ ticker ++ " Cached Insider Transactions from " ++ before ++ " to "
      ++ curr_date ++ ":\n"
      ++ concatRender formatCachedTrans
        (dedupBy (fun e => e) ((data.map Prod.snd).flatten))
      ++ transFooterCached

/-- Retrieval-with-fallback for insider transactions, `interface.py`
lines 154-228.  `remote` follows the same convention as the sentiment
endpoint: `none` an exception, `some none` a falsy response or one
lacking the data field, `some (some entries)` a response with the data
field present (the remote report is produced even for empty `entries`).
The remote path deduplicates by the composite string key `transKey`. -/
def get_finnhub_company_insider_transactions (ticker before curr_date : String)
    (config : FinnhubConfig) (remote : Option (Option (List TransRec)))
    (snapshot : Option (List (String × List TransRec))) : String :=
  let remoteReport : Option String :=
    if routingOn config then
      match remote with
      | some (some entries) =>
        some ("## " ++ ticker ++ " Real-time Insider Transactions from "
          ++ before ++ " to " ++ curr_date ++ ":\n"
          ++ concatRender formatRemoteTrans (dedupBy transKey entries)
          ++ transFooterRemote)
      | _ => none
    else none
  match remoteReport with
  | some s => s
  | none => transCachePath ticker before curr_date snapshot

/-- Fields of the remote company-profile response consumed by the
renderer, each already rendered to the string the f-string would embed
(the source accesses them with a defensive `.get` defaulting to N/A). -/
structure ProfileData where
  name : String
  finnhubIndustry : String
  marketCapitalization : String
  country : String
  currency : String
  exchange : String
  ipo : String
  shareOutstanding : String
  weburl : String
  description : Option String
deriving DecidableEq

/-- Rendering of a company profile, `interface.py` lines 252-265: the
description is truncated to 500 characters with an ellipsis appended
exactly when it is longer than 500 characters. -/
def formatProfile (ticker : String) (p : ProfileData) : String :=
  "## " ++ ticker ++ " Company Profile:\n\n"
    ++ "**Company Name**: " ++ p.name ++ "\n"
    ++ "**Industry**: " ++ p.finnhubIndustry ++ "\n"
    ++ "**Market Cap**: $" ++ p.marketCapitalization ++ "M\n"
    ++ "**Country**: " ++ p.country ++ "\n"
    ++ "**Currency**: " ++ p.currency ++ "\n"
    ++ "**Exchange**: " ++ p.exchange ++ "\n"
    ++ "**IPO Date**: " ++ p.ipo ++ "\n"
    ++ "**Outstanding Shares**: " ++ p.shareOutstanding ++ "M\n"
    ++ "**Website**: " ++ p.weburl ++ "\n\n"
    ++ (match p.description with
        | some d =>
          "**Description**: " ++ strTake d 500
            ++ (if 500 < d.length then "..." else "") ++ "\n"
        | none => "")

/-- Company-profile retrieval, `interface.py` lines 231-271.  `remote`
is the outcome of `api.get_company_profile`: `none` an exception,
`some none` a falsy (empty) response dict, `some (some p)` a truthy
profile.  The source consults only the config and the remote API and
never opens a cache snapshot; the `snapshotOnDisk` parameter records the
cache contents that would have been available, purely so that theorems
can state that the result does not depend on them. -/
def get_finnhub_company_profile (ticker : String) (config : FinnhubConfig)
    (remote : Option (Option ProfileData))
    (snapshotOnDisk : Option (List (String × List ProfileData))) : String :=
  let _ := snapshotOnDisk
  let remoteReport : Option String :=
    if routingOn config then
      match remote with
      | some (some p) => some (formatProfile ticker p)
      | _ => none
    else none
  match remoteReport with
  | some s => s
  | none => "Company profile data not available for " ++ ticker

/-- Lookup in the flat metric mapping of the basic-financials response,
with the N/A default used by every `.get` in the renderer. -/
def metricGet (m : List (String × String)) (k : String) : String :=
  match m.find? (fun kv => kv.1 == k) with
  | some kv => kv.2
  | none => "N/A"

/-- Rendering of the basic-financials metrics, `interface.py` lines
296-326. -/
def formatFinancials (ticker : String) (m : List (String × String)) : String :=
  "## " ++ ticker ++ " Basic Financial Metrics:\n\n"
    ++ "### Valuation Metrics\n"
    ++ "**P/E Ratio (TTM)**: " ++ metricGet m "peBasicExclExtraTTM" ++ "\n"
    ++ "**P/B Ratio (TTM)**: " ++ metricGet m "pbAnnual" ++ "\n"
    ++ "**P/S Ratio (TTM)**: " ++ metricGet m "psAnnual" ++ "\n"
    ++ "**EV/EBITDA (TTM)**: " ++ metricGet m "evEbitdaTTM" ++ "\n\n"
    ++ "### Profitability Metrics\n"
    ++ "**ROE (TTM)**: " ++ metricGet m "roeTTM" ++ "%\n"
    ++ "**ROA (TTM)**: " ++ metricGet m "roaTTM" ++ "%\n"
    ++ "**ROI (TTM)**: " ++ metricGet m "roiTTM" ++ "%\n"
    ++ "**Gross Margin (TTM)**: " ++ metricGet m "grossMarginTTM" ++ "%\n"
    ++ "**Operating Margin (TTM)**: " ++ metricGet m "operatingMarginTTM" ++ "%\n"
    ++ "**Net Profit Margin (TTM)**: " ++ metricGet m "netProfitMarginTTM" ++ "%\n\n"
    ++ "### Financial Health\n"
    ++ "**Current Ratio (Annual)**: " ++ metricGet m "currentRatioAnnual" ++ "\n"
    ++ "**Quick Ratio (Annual)**: " ++ metricGet m "quickRatioAnnual" ++ "\n"
    ++ "**Debt/Equity (Annual)**: " ++ metricGet m "totalDebtToEquityAnnual" ++ "\n"
    ++ "**Long-term Debt/Capital (Annual)**: " ++ metricGet m "longTermDebtCapitalAnnual" ++ "\n\n"
    ++ "### Growth Metrics\n"
    ++ "**Revenue Growth (TTM YoY)**: " ++ metricGet m "revenueGrowthTTMYoy" ++ "%\n"
    ++ "**EPS Growth (TTM YoY)**: " ++ metricGet m "epsGrowthTTMYoy" ++ "%\n"

/-- Basic-financials retrieval, `interface.py` lines 274-330.  `remote`
is the outcome of `api.get_basic_financials`: `none` an exception,
`some none` a response that is falsy or lacks the metric field (guard
`if financials_data and ... in financials_data` on the metric field; a dict carrying
the metric field is necessarily truthy), `some (some m)` a response
whose metric field holds the mapping `m`.  As with the profile endpoint
the source never opens a cache snapshot; `snapshotOnDisk` only lets
theorems state that independence. -/
def get_finnhub_basic_financials (ticker : String) (config : FinnhubConfig)
    (remote : Option (Option (List (String × String))))
    (snapshotOnDisk : Option (List (String × List (String × String)))) :
    String :=
  let _ := snapshotOnDisk
  let remoteReport : Option String :=
    if routingOn config then
      match remote with
      | some (some m) => some (formatFinancials ticker m)
      | _ => none
    else none
  match remoteReport with
  | some s => s
  | none => "Basic financial metrics not available for " ++ ticker

/-- One row of the historical price CSV: the `Date` cell and the
remaining cells, which the query carries through untouched. -/
structure PriceRow where
  date : String
  cells : List String
deriving DecidableEq

/-- Bounded historical price query, `interface.py` lines 607-639
(`get_YFin_data`).  The snapshot is the parsed CSV for the symbol
(filename fixed to the 2015-01-01..2025-03-25 range).  The source
raises when `end_date > "2025-03-25"` (Python string comparison) and
otherwise returns the rows whose date prefix lies in the inclusive
interval; the start date is never validated. -/
def get_YFin_data (snapshot : List PriceRow) (start_date end_date : String) :
    Except String (List PriceRow) :=
  if strLe end_date "2025-03-25" = false then
    Except.error ("Get_YFin_Data: " ++ end_date
      ++ " is outside of the data range of 2015-01-01 to 2025-03-25")
  else
    Except.ok (snapshot.filter (fun r =>
      strLe start_date (strTake r.date 10) && strLe (strTake r.date 10) end_date))

/-- The supported-indicator dictionary `best_ind_params` of
`get_stock_stats_indicators_window`, `interface.py` lines 369-440, in
source order. -/
def best_ind_params : List (String × String) :=
  [("close_50_sma", "50 SMA: A medium-term trend indicator. Usage: Identify trend direction and serve as dynamic support/resistance. Tips: It lags price; combine with faster indicators for timely signals."),
   ("close_200_sma", "200 SMA: A long-term trend benchmark. Usage: Confirm overall market trend and identify golden/death cross setups. Tips: It reacts slowly; best for strategic trend confirmation rather than frequent trading entries."),
   ("close_10_ema", "10 EMA: A responsive short-term average. Usage: Capture quick shifts in momentum and potential entry points. Tips: Prone to noise in choppy markets; use alongside longer averages for filtering false signals."),
   ("macd", "MACD: Computes momentum via differences of EMAs. Usage: Look for crossovers and divergence as signals of trend changes. Tips: Confirm with other indicators in low-volatility or sideways markets."),
   ("macds", "MACD Signal: An EMA smoothing of the MACD line. Usage: Use crossovers with the MACD line to trigger trades. Tips: Should be part of a broader strategy to avoid false positives."),
   ("macdh", "MACD Histogram: Shows the gap between the MACD line and its signal. Usage: Visualize momentum strength and spot divergence early. Tips: Can be volatile; complement with additional filters in fast-moving markets."),
   ("rsi", "RSI: Measures momentum to flag overbought/oversold conditions. Usage: Apply 70/30 thresholds and watch for divergence to signal reversals. Tips: In strong trends, RSI may remain extreme; always cross-check with trend analysis."),
   ("boll", "Bollinger Middle: A 20 SMA serving as the basis for Bollinger Bands. Usage: Acts as a dynamic benchmark for price movement. Tips: Combine with the upper and lower bands to effectively spot breakouts or reversals."),
   ("boll_ub", "Bollinger Upper Band: Typically 2 standard deviations above the middle line. Usage: Signals potential overbought conditions and breakout zones. Tips: Confirm signals with other tools; prices may ride the band in strong trends."),
   ("boll_lb", "Bollinger Lower Band: Typically 2 standard deviations below the middle line. Usage: Indicates potential oversold conditions. Tips: Use additional analysis to avoid false reversal signals."),
   ("atr", "ATR: Averages true range to measure volatility. Usage: Set stop-loss levels and adjust position sizes based on current market volatility. Tips: It\x27s a reactive measure, so use it as part of a broader risk management strategy."),
   ("vwma", "VWMA: A moving average weighted by volume. Usage: Confirm trends by integrating price action with volume data. Tips: Watch for skewed results from volume spikes; use in combination with other volume analyses."),
   ("mfi", "MFI: The Money Flow Index is a momentum indicator that uses both price and volume to measure buying and selling pressure. Usage: Identify overbought (>80) or oversold (<20) conditions and confirm the strength of trends or reversals. Tips: Use alongside RSI or MACD to confirm signals; divergence between price and MFI can indicate potential reversals.")]

/-- The keys of `best_ind_params`, in order: the supported indicators. -/
def supportedIndicators : List String := best_ind_params.map Prod.fst

/-- Separator-joined rendering of a string list (shape of the Python
`", ".join`-style spelling inside a list repr). -/
def joinSep (sep : String) : List String → String
  | [] => ""
  | [x] => x
  | x :: y :: rest => x ++ sep ++ joinSep sep (y :: rest)

/-- Single-quoted name, as Python repr renders each list element. -/
def quoteName (s : String) : String := "\x27" ++ s ++ "\x27"

/-- Python rendering of `list(best_ind_params.keys())`. -/
def supportedNamesRepr : String :=
  "[" ++ joinSep ", " (supportedIndicators.map quoteName) ++ "]"

/-- Message of the `ValueError` raised for an unsupported indicator,
`interface.py` lines 443-445. -/
def unsupportedMsg (indicator : String) : String :=
  "Indicator " ++ indicator ++ " is not supported. Please choose from: "
    ++ supportedNamesRepr

/-- Description appended at the bottom of the report,
`best_ind_params.get(indicator, "No description available.")`. -/
def indicatorDescription (indicator : String) : String :=
  match best_ind_params.find? (fun kv => kv.1 == indicator) with
  | some kv => kv.2
  | none => "No description available."

/-- Outcome of one `StockstatsUtils.get_stock_stats(symbol, indicator,
date, dir, online)` call, the numeric statistics engine treated as an
external collaborator: `Except.error` models a raised exception,
`Except.ok v` the `str()` rendering of the computed value.  Calendar
dates are modelled as integer day numbers (one calendar day = 1), whose
decimal rendering stands for the YYYY-MM-DD formatting — both injective
renderings of the same totally ordered day line. -/
def IndicatorEngine : Type := String → String → Int → Bool → Except String String

/-- Date rendering used in the report lines (stands for
`curr_date.strftime("%Y-%m-%d")` under the integer day-number model). -/
def dateToString (d : Int) : String := toString d

/-- Per-day indicator wrapper, `interface.py` lines 495-521
(`get_stockstats_indicator`): any exception from the statistics engine
is caught and the empty string is returned in place of a value. -/
def get_stockstats_indicator (engine : IndicatorEngine)
    (symbol indicator : String) (curr_date : Int) (online : Bool) : String :=
  match engine symbol indicator curr_date online with
  | Except.ok v => v
  | Except.error _ => ""

/-- The backward cursor iteration of the window loops: starting at
`curr_date` and decrementing one calendar day per step, the loop body
runs while `before <= cursor` with `before = curr_date - look_back_days`,
hence exactly `look_back_days + 1` times. -/
def backwardWindow (curr_date : Int) : Nat → List Int
  | 0 => [curr_date]
  | n + 1 => curr_date :: backwardWindow (curr_date - 1) n

/-- The cursor dates for which the window loop emits a sample line:
all of them in online mode; in offline mode only those present in the
`Date` column of the price snapshot (`interface.py` lines 463-472 vs
475-483). -/
def emittedDates (online : Bool) (snapshotDates : List Int) (curr_date : Int)
    (look_back_days : Nat) : List Int :=
  if online then backwardWindow curr_date look_back_days
  else (backwardWindow curr_date look_back_days).filter
    (fun d => snapshotDates.contains d)

/-- Accumulated sample lines (date, colon, value, newline) of the loop. -/
def indLines (engine : IndicatorEngine) (symbol indicator : String)
    (online : Bool) : List Int → String
  | [] => ""
  | d :: ds =>
    dateToString d ++ ": "
      ++ get_stockstats_indicator engine symbol indicator d online ++ "\n"
      ++ indLines engine symbol indicator online ds

/-- Windowed indicator report, `interface.py` lines 359-492
(`get_stock_stats_indicators_window`).  `snapshotDates` is the `Date`
column of the price CSV read in offline mode.  An unsupported indicator
name raises `ValueError` before any data access; the error branch reads
neither the engine nor the snapshot. -/
def get_stock_stats_indicators_window (engine : IndicatorEngine)
    (symbol indicator : String) (curr_date : Int) (look_back_days : Nat)
    (online : Bool) (snapshotDates : List Int) : Except String String :=
  if supportedIndicators.contains indicator = false then
    Except.error (unsupportedMsg indicator)
  else
    Except.ok ("## " ++ indicator ++ " values from "
      ++ dateToString (curr_date - look_back_days) ++ " to "
      ++ dateToString curr_date ++ ":\n\n"
      ++ indLines engine symbol indicator online
        (emittedDates online snapshotDates curr_date look_back_days)
      ++ "\n\n" ++ indicatorDescription indicator)

theorem dedupByAux_sublist {α β : Type} [DecidableEq β] (key : α → β)
    (xs : List α) : ∀ seen : List β, List.Sublist (dedupByAux key seen xs) xs := by
  induction xs with
  | nil => intro seen; simp [dedupByAux]
  | cons x xs ih =>
    intro seen
    simp only [dedupByAux]
    split
    · exact List.Sublist.cons x (ih seen)
    · exact List.Sublist.cons₂ x (ih (key x :: seen))

theorem key_not_seen_of_mem_dedupByAux {α β : Type} [DecidableEq β]
    (key : α → β) (xs : List α) :
    ∀ (seen : List β) (y : α), y ∈ dedupByAux key seen xs → key y ∉ seen := by
  induction xs with
  | nil => intro seen y h; simp [dedupByAux] at h
  | cons x xs ih =>
    intro seen y h
    simp only [dedupByAux] at h
    split at h
    · exact ih seen y h
    · rename_i hx
      rcases List.mem_cons.mp h with rfl | hy
      · exact hx
      · intro hseen
        exact ih (key x :: seen) y hy (List.mem_cons_of_mem _ hseen)

theorem dedupByAux_keys_nodup {α β : Type} [DecidableEq β] (key : α → β)
    (xs : List α) : ∀ seen : List β, ((dedupByAux key seen xs).map key).Nodup := by
  induction xs with
  | nil => intro seen; simp [dedupByAux]
  | cons x xs ih =>
    intro seen
    simp only [dedupByAux]
    split
    · exact ih seen
    · simp only [List.map_cons, List.nodup_cons]
      refine ⟨?_, ih (key x :: seen)⟩
      intro hmem
      obtain ⟨y, hy, hkey⟩ := List.mem_map.mp hmem
      exact key_not_seen_of_mem_dedupByAux key xs (key x :: seen) y hy
        (by rw [hkey]; exact List.mem_cons_self _ _)

theorem dedupByAux_idem {α β : Type} [DecidableEq β] (key : α → β)
    (xs : List α) : ∀ seen : List β,
    dedupByAux key seen (dedupByAux key seen xs) = dedupByAux key seen xs := by
  induction xs with
  | nil => intro seen; simp [dedupByAux]
  | cons x xs ih =>
    intro seen
    simp only [dedupByAux]
    split
    · exact ih seen
    · rename_i hx
      simp only [dedupByAux, if_neg hx]
      exact congrArg (x :: ·) (ih (key x :: seen))

theorem dedupByAux_covers {α β : Type} [DecidableEq β] (key : α → β)
    (xs : List α) : ∀ (seen : List β) (x : α), x ∈ xs →
    key x ∈ seen ∨ ∃ y, y ∈ dedupByAux key seen xs ∧ key y = key x := by
  induction xs with
  | nil => intro seen x h; cases h
  | cons z xs ih =>
    intro seen x hx
    simp only [dedupByAux]
    rcases List.mem_cons.mp hx with rfl | hx2
    · by_cases hz : key x ∈ seen
      · exact Or.inl hz
      · refine Or.inr ?_
        rw [if_neg hz]
        exact ⟨x, List.mem_cons_self _ _, rfl⟩
    · by_cases hz : key z ∈ seen
      · rw [if_pos hz]; exact ih seen x hx2
      · rw [if_neg hz]
        rcases ih (key z :: seen) x hx2 with hmem | ⟨y, hy, hk⟩
        · rcases List.mem_cons.mp hmem with heq | hseen
          · exact Or.inr ⟨z, List.mem_cons_self _ _, heq.symm⟩
          · exact Or.inl hseen
        · exact Or.inr ⟨y, List.mem_cons_of_mem _ hy, hk⟩

theorem mem_dedupBy_id {α : Type} [DecidableEq α] (xs : List α) (x : α)
    (hx : x ∈ xs) : x ∈ dedupBy (fun a => a) xs := by
  rcases dedupByAux_covers (fun a => a) xs [] x hx with h | ⟨y, hy, hk⟩
  · cases h
  · simpa [dedupBy, ← hk] using hy

theorem mem_backwardWindow (n : Nat) : ∀ c d : Int,
    d ∈ backwardWindow c n ↔ c - n ≤ d ∧ d ≤ c := by
  induction n with
  | zero =>
    intro c d
    simp only [backwardWindow, List.mem_singleton]
    omega
  | succ n ih =>
    intro c d
    simp only [backwardWindow, List.mem_cons, ih (c - 1)]
    push_cast
    omega

theorem backwardWindow_head (c : Int) (n : Nat) :
    (backwardWindow c n).head? = some c := by
  cases n <;> rfl

theorem backwardWindow_chain (n : Nat) : ∀ c : Int,
    List.Chain' (fun a b => b = a - 1) (backwardWindow c n) := by
  induction n with
  | zero => intro c; simp [backwardWindow]
  | succ n ih =>
    intro c
    simp only [backwardWindow]
    refine List.chain'_cons'.mpr ⟨?_, ih (c - 1)⟩
    intro y hy
    rw [backwardWindow_head] at hy
    cases hy
    rfl

theorem containsSub_joinSep (sep : String) (l : List String) (x : String)
    (hx : x ∈ l) : ContainsSub (joinSep sep l) x := by
  induction l with
  | nil => cases hx
  | cons a rest ih =>
    rcases List.mem_cons.mp hx with rfl | hmem
    · cases rest with
      | nil => simpa [joinSep] using containsSub_self x
      | cons b r =>
        show ContainsSub (x ++ sep ++ joinSep sep (b :: r)) x
        exact containsSub_append_right _
          (containsSub_append_right _ (containsSub_self x))
    · cases rest with
      | nil => cases hmem
      | cons b r =>
        show ContainsSub (a ++ sep ++ joinSep sep (b :: r)) x
        rw [String.append_assoc]
        exact containsSub_append_left _ (containsSub_append_left _ (ih hmem))

theorem containsSub_of_quoted {s x : String} (h : ContainsSub s (quoteName x)) :
    ContainsSub s x := by
  obtain ⟨a, b, rfl⟩ := h
  refine ⟨a ++ "\x27", "\x27" ++ b, ?_⟩
  simp [quoteName, String.append_assoc]

theorem containsSub_indLines (engine : IndicatorEngine)
    (symbol indicator : String) (online : Bool) (ds : List Int) (d : Int)
    (hd : d ∈ ds) :
    ContainsSub (indLines engine symbol indicator online ds)
      (dateToString d ++ ": "
        ++ get_stockstats_indicator engine symbol indicator d online ++ "\n") := by
  induction ds with
  | nil => cases hd
  | cons a rest ih =>
    rcases List.mem_cons.mp hd with rfl | hmem
    · show ContainsSub (dateToString d ++ ": "
        ++ get_stockstats_indicator engine symbol indicator d online ++ "\n"
        ++ indLines engine symbol indicator online rest) _
      exact containsSub_append_right _ (containsSub_self _)
    · show ContainsSub (dateToString a ++ ": "
        ++ get_stockstats_indicator engine symbol indicator a online ++ "\n"
        ++ indLines engine symbol indicator online rest) _
      exact containsSub_append_left _ (ih hmem)

/-- Claim C8: the deduplication pass is idempotent and order-preserving:
applying the first-seen-key filter to its own output returns it
unchanged; the surviving records form a sublist of the input (hence
appear in input order); the survivors carry pairwise distinct keys; and
every key occurring in the input is represented by a survivor — so the
output is exactly the first occurrence of each key, in the order of
first occurrence. -/
theorem dedup_idempotent_and_order {α β : Type} [DecidableEq β]
    (key : α → β) (xs : List α) :
    dedupBy key (dedupBy key xs) = dedupBy key xs ∧
    List.Sublist (dedupBy key xs) xs ∧
    ((dedupBy key xs).map key).Nodup ∧
    ∀ x, x ∈ xs → ∃ y, y ∈ dedupBy key xs ∧ key y = key x := by
  refine ⟨dedupByAux_idem key xs [], dedupByAux_sublist key xs [],
    dedupByAux_keys_nodup key xs [], ?_⟩
  intro x hx
  rcases dedupByAux_covers key xs [] x hx with h | h
  · cases h
  · exact h

/-- Witness for the C8 theorem at a concrete record list. -/
theorem dedup_idempotent_and_order_witness :
    dedupBy (fun n : Int => n) (dedupBy (fun n : Int => n) [3, 5, 3])
      = dedupBy (fun n : Int => n) [3, 5, 3] ∧
    ∃ y, y ∈ dedupBy (fun n : Int => n) [3, 5, 3] ∧ y = 3 := by
  refine ⟨(dedup_idempotent_and_order (fun n : Int => n) [3, 5, 3]).1, ?_⟩
  simpa using
    (dedup_idempotent_and_order (fun n : Int => n) [3, 5, 3]).2.2.2 3 (by decide)

/-- Claim C2: for start ≤ end, the CacheStore query returns exactly the
snapshot entries whose date key lies in the closed interval and whose
record list is non-empty; an absent or unparsable snapshot yields the
empty mapping.  Boundary dates strictly outside the interval are
excluded by the two comparisons of the characterization. -/
theorem cacheStore_range_query {α : Type}
    (snapshot : Option (List (String × List α))) (start_date end_date : String)
    (_hrange : strLe start_date end_date = true) :
    get_data_in_range (none : Option (List (String × List α))) start_date
        end_date = [] ∧
    ∀ kv : String × List α,
      kv ∈ get_data_in_range snapshot start_date end_date ↔
        (∃ data, snapshot = some data ∧ kv ∈ data) ∧
        strLe start_date kv.1 = true ∧ strLe kv.1 end_date = true ∧
        kv.2 ≠ [] := by
  refine ⟨rfl, ?_⟩
  intro kv
  cases snapshot with
  | none => simp [get_data_in_range]
  | some data =>
    simp [get_data_in_range, List.mem_filter, List.length_pos, and_assoc]

/-- Witness for the C2 theorem: a key inside the interval with a
non-empty record list is returned. -/
theorem cacheStore_range_query_witness :
    ("2025-01-02", [(0 : Nat)]) ∈
      get_data_in_range
        (some [("2025-01-01", ([] : List Nat)), ("2025-01-02", [0]),
          ("2025-01-09", [1])])
        "2025-01-02" "2025-01-08" := by
  have h := (cacheStore_range_query
    (some [("2025-01-01", ([] : List Nat)), ("2025-01-02", [0]),
      ("2025-01-09", [1])])
    "2025-01-02" "2025-01-08" (by decide)).2 ("2025-01-02", [0])
  exact h.mpr ⟨⟨_, rfl, by decide⟩, by decide, by decide, by decide⟩

/-- Claim C7: an unsupported indicator name makes the window query fail
with the `ValueError` message listing every supported indicator name,
before any data access (the failure is identical for every engine and
snapshot); a supported name never produces that failure. -/
theorem indicator_validation (engine : IndicatorEngine)
    (symbol indicator : String) (curr_date : Int) (look_back_days : Nat)
    (online : Bool) (snapshotDates : List Int) :
    (supportedIndicators.contains indicator = false →
      get_stock_stats_indicators_window engine symbol indicator curr_date
          look_back_days online snapshotDates
        = Except.error (unsupportedMsg indicator) ∧
      (∀ name, name ∈ supportedIndicators →
        ContainsSub (unsupportedMsg indicator) name) ∧
      (∀ (engine2 : IndicatorEngine) (snapshot2 : List Int),
        get_stock_stats_indicators_window engine2 symbol indicator curr_date
            look_back_days online snapshot2
          = Except.error (unsupportedMsg indicator))) ∧
    (supportedIndicators.contains indicator = true →
      ∃ report, get_stock_stats_indicators_window engine symbol indicator
          curr_date look_back_days online snapshotDates
        = Except.ok report) := by
  constructor
  · intro h
    refine ⟨?_, ?_, ?_⟩
    · unfold get_stock_stats_indicators_window
      rw [if_pos h]
    · intro name hname
      have h1 : ContainsSub (joinSep ", " (supportedIndicators.map quoteName))
          name :=
        containsSub_of_quoted
          (containsSub_joinSep _ _ _ (List.mem_map_of_mem quoteName hname))
      have h2 : ContainsSub supportedNamesRepr name := by
        unfold supportedNamesRepr
        exact containsSub_append_right _ (containsSub_append_left _ h1)
      unfold unsupportedMsg
      exact containsSub_append_left _ h2
    · intro engine2 snapshot2
      unfold get_stock_stats_indicators_window
      rw [if_pos h]
  · intro h
    refine ⟨"## " ++ indicator ++ " values from "
      ++ dateToString (curr_date - look_back_days) ++ " to "
      ++ dateToString curr_date ++ ":\n\n"
      ++ indLines engine symbol indicator online
        (emittedDates online snapshotDates curr_date look_back_days)
      ++ "\n\n" ++ indicatorDescription indicator, ?_⟩
    unfold get_stock_stats_indicators_window
    rw [if_neg (by rw [h]; simp)]

/-- Witness for the C7 theorem: a bogus indicator fails with a message
containing a supported name; a supported indicator succeeds. -/
theorem indicator_validation_witness :
    get_stock_stats_indicators_window (fun _ _ _ _ => Except.error "down")
        "AAPL" "bogus" 100 3 true []
      = Except.error (unsupportedMsg "bogus") ∧
    ContainsSub (unsupportedMsg "bogus") "macd" ∧
    ∃ report, get_stock_stats_indicators_window
        (fun _ _ _ _ => Except.error "down") "AAPL" "macd" 100 3 true []
      = Except.ok report := by
  have h := indicator_validation (fun _ _ _ _ => Except.error "down") "AAPL"
    "bogus" 100 3 true []
  have h2 := indicator_validation (fun _ _ _ _ => Except.error "down") "AAPL"
    "macd" 100 3 true []
  exact ⟨(h.1 (by decide)).1, (h.1 (by decide)).2.1 "macd" (by decide),
    h2.2 (by decide)⟩

/-- Claim C6: the window query iterates a cursor from the current date
downward one calendar day at a time, stopping exactly when the cursor
passes below current − lookBack (so that bound itself is included); in
offline mode a sample line is emitted only for cursor dates present in
the price snapshot date column, in online mode for every cursor date.
The report body consists of exactly the lines for `emittedDates`. -/
theorem window_iteration (engine : IndicatorEngine)
    (symbol indicator : String) (curr_date : Int) (look_back_days : Nat)
    (online : Bool) (snapshotDates : List Int) :
    (supportedIndicators.contains indicator = true →
      get_stock_stats_indicators_window engine symbol indicator curr_date
          look_back_days online snapshotDates
        = Except.ok ("## " ++ indicator ++ " values from "
            ++ dateToString (curr_date - look_back_days) ++ " to "
            ++ dateToString curr_date ++ ":\n\n"
            ++ indLines engine symbol indicator online
              (emittedDates online snapshotDates curr_date look_back_days)
            ++ "\n\n" ++ indicatorDescription indicator)) ∧
    (∀ d : Int,
      d ∈ emittedDates online snapshotDates curr_date look_back_days ↔
        (curr_date - look_back_days ≤ d ∧ d ≤ curr_date ∧
          (online = true ∨ d ∈ snapshotDates))) ∧
    (curr_date - look_back_days) ∈ backwardWindow curr_date look_back_days ∧
    List.Chain' (fun a b => b = a - 1)
      (backwardWindow curr_date look_back_days) ∧
    (backwardWindow curr_date look_back_days).head? = some curr_date := by
  refine ⟨?_, ?_, ?_, backwardWindow_chain look_back_days curr_date,
    backwardWindow_head curr_date look_back_days⟩
  · intro h
    unfold get_stock_stats_indicators_window
    rw [if_neg (by rw [h]; simp)]
  · intro d
    unfold emittedDates
    cases online with
    | true => simp [mem_backwardWindow]
    | false =>
      simp only [Bool.false_eq_true, if_false, List.mem_filter,
        mem_backwardWindow]
      constructor
      · rintro ⟨⟨h1, h2⟩, h3⟩
        exact ⟨h1, h2, Or.inr (by simpa using h3)⟩
      · rintro ⟨h1, h2, h3 | h3⟩
        · cases h3
        · exact ⟨⟨h1, h2⟩, by simpa using h3⟩
  · rw [mem_backwardWindow]
    omega

/-- Witness for the C6 theorem: a 4-day lookback from day 12 in offline
mode over a snapshot containing days 10 and 8 emits the line for day 10,
and the supported indicator succeeds. -/
theorem window_iteration_witness :
    get_stock_stats_indicators_window (fun _ _ _ _ => Except.error "down")
        "AAPL" "macd" 12 4 false [10, 8]
      = Except.ok ("## " ++ "macd" ++ " values from "
          ++ dateToString ((12 : Int) - (4 : Nat)) ++ " to "
          ++ dateToString 12 ++ ":\n\n"
          ++ indLines (fun _ _ _ _ => Except.error "down") "AAPL" "macd" false
            (emittedDates false [10, 8] 12 4)
          ++ "\n\n" ++ indicatorDescription "macd") ∧
    (10 : Int) ∈ emittedDates false [10, 8] 12 4 := by
  have h := window_iteration (fun _ _ _ _ => Except.error "down") "AAPL"
    "macd" 12 4 false [10, 8]
  exact ⟨h.1 (by decide), (h.2.1 10).mpr ⟨by omega, by omega, Or.inr (by decide)⟩⟩

/-- Claim C10: an exception from the statistics engine is caught by the
per-day wrapper, which returns the empty string, and the windowed report
consequently still shows the failing day as a line with an empty value
(rather than omitting it or aborting). -/
theorem indicator_error_swallowed (engine : IndicatorEngine)
    (symbol indicator : String) (curr_date d : Int) (look_back_days : Nat)
    (online : Bool) (snapshotDates : List Int) (e : String)
    (herr : engine symbol indicator d online = Except.error e)
    (hind : supportedIndicators.contains indicator = true)
    (hd : d ∈ emittedDates online snapshotDates curr_date look_back_days) :
    get_stockstats_indicator engine symbol indicator d online = "" ∧
    ∃ report,
      get_stock_stats_indicators_window engine symbol indicator curr_date
          look_back_days online snapshotDates = Except.ok report ∧
      ContainsSub report (dateToString d ++ ": \n") := by
  have hval : get_stockstats_indicator engine symbol indicator d online = "" := by
    simp [get_stockstats_indicator, herr]
  refine ⟨hval, "## " ++ indicator ++ " values from "
    ++ dateToString (curr_date - look_back_days) ++ " to "
    ++ dateToString curr_date ++ ":\n\n"
    ++ indLines engine symbol indicator online
      (emittedDates online snapshotDates curr_date look_back_days)
    ++ "\n\n" ++ indicatorDescription indicator, ?_, ?_⟩
  · unfold get_stock_stats_indicators_window
    rw [if_neg (by rw [hind]; simp)]
  · have h := containsSub_indLines engine symbol indicator online _ d hd
    rw [hval] at h
    have hsub : dateToString d ++ ": " ++ "" ++ "\n"
        = dateToString d ++ ": \n" := by
      rw [String.append_empty, String.append_assoc]
      rfl
    rw [hsub] at h
    exact containsSub_append_right _
      (containsSub_append_right _ (containsSub_append_left _ h))

/-- Witness for the C10 theorem with a concrete always-failing engine. -/
theorem indicator_error_swallowed_witness :
    get_stockstats_indicator (fun _ _ _ _ => Except.error "boom") "AAPL" "rsi"
        10 true = "" ∧
    ∃ report, get_stock_stats_indicators_window
        (fun _ _ _ _ => Except.error "boom") "AAPL" "rsi" 10 2 true []
      = Except.ok report ∧ ContainsSub report (dateToString 10 ++ ": \n") :=
  indicator_error_swallowed (fun _ _ _ _ => Except.error "boom") "AAPL" "rsi"
    10 10 2 true [] "boom" rfl (by decide) (by decide)

theorem newsCachePath_cases (ticker before curr_date : String)
    (snapshot : Option (List (String × List CachedNewsRec))) :
    (get_data_in_range snapshot before curr_date = [] ∧
      newsCachePath ticker before curr_date snapshot
        = "No news data available for " ++ ticker ++ " from " ++ before
          ++ " to " ++ curr_date) ∨
    (get_data_in_range snapshot before curr_date ≠ [] ∧
      StartsWith (newsCachePath ticker before curr_date snapshot)
        ("## " ++ ticker ++ " Cached News from " ++ before ++ " to "
          ++ curr_date ++ ":\n")) := by
  by_cases h : get_data_in_range snapshot before curr_date = []
  · exact Or.inl ⟨h, by simp [newsCachePath, h]⟩
  · have hlen : ¬ (get_data_in_range snapshot before curr_date).length = 0 := by
      simpa [List.length_eq_zero] using h
    exact Or.inr ⟨h,
      formatCachedNews (get_data_in_range snapshot before curr_date),
      by simp [newsCachePath, hlen]⟩

/-- Claim C1: the news retrieval protocol — a non-empty remote result
(with routing enabled) yields the real-time-tagged report regardless of
cache contents; a failed or skipped remote attempt with a non-empty
cache query yields the cached-tagged report; with neither source the
explicit no-data message is returned; and in every case the call
returns one of these three reports (never an exception). -/
theorem news_fallback_protocol (ticker before curr_date : String)
    (config : FinnhubConfig) (remote : Option (List NewsArticle))
    (snapshot : Option (List (String × List CachedNewsRec))) :
    (∀ l, routingOn config = true → remote = some l → l ≠ [] →
      StartsWith
        (get_finnhub_news ticker before curr_date config remote snapshot)
        ("## " ++ ticker ++ " Real-time News from " ++ before ++ " to "
          ++ curr_date ++ ":\n")) ∧
    ((routingOn config = false ∨ remote = none ∨ remote = some []) →
      get_finnhub_news ticker before curr_date config remote snapshot
        = newsCachePath ticker before curr_date snapshot ∧
      (get_data_in_range snapshot before curr_date ≠ [] →
        StartsWith
          (get_finnhub_news ticker before curr_date config remote snapshot)
          ("## " ++ ticker ++ " Cached News from " ++ before ++ " to "
            ++ curr_date ++ ":\n")) ∧
      (get_data_in_range snapshot before curr_date = [] →
        get_finnhub_news ticker before curr_date config remote snapshot
          = "No news data available for " ++ ticker ++ " from " ++ before
            ++ " to " ++ curr_date)) ∧
    (StartsWith
        (get_finnhub_news ticker before curr_date config remote snapshot)
        ("## " ++ ticker ++ " Real-time News from " ++ before ++ " to "
          ++ curr_date ++ ":\n") ∨
      StartsWith
        (get_finnhub_news ticker before curr_date config remote snapshot)
        ("## " ++ ticker ++ " Cached News from " ++ before ++ " to "
          ++ curr_date ++ ":\n") ∨
      get_finnhub_news ticker before curr_date config remote snapshot
        = "No news data available for " ++ ticker ++ " from " ++ before
          ++ " to " ++ curr_date) := by
  have hreal : ∀ l, routingOn config = true → l ≠ [] →
      get_finnhub_news ticker before curr_date config (some l) snapshot
        = "## " ++ ticker ++ " Real-time News from " ++ before ++ " to "
          ++ curr_date ++ ":\n" ++ formatRemoteNews l := by
    intro l hr hl
    have hlen : l.length ≠ 0 := by simpa [List.length_eq_zero] using hl
    simp [get_finnhub_news, hr, hlen]
  have hfall : (routingOn config = false ∨ remote = none ∨ remote = some []) →
      get_finnhub_news ticker before curr_date config remote snapshot
        = newsCachePath ticker before curr_date snapshot := by
    intro hcase
    rcases hcase with hr0 | hrem | hrem
    · simp [get_finnhub_news, hr0]
    · subst hrem
      cases hb : routingOn config <;> simp [get_finnhub_news, hb]
    · subst hrem
      cases hb : routingOn config <;> simp [get_finnhub_news, hb]
  refine ⟨?_, ?_, ?_⟩
  · intro l hr hrem hl
    subst hrem
    exact ⟨formatRemoteNews l, hreal l hr hl⟩
  · intro hcase
    have heq := hfall hcase
    refine ⟨heq, ?_, ?_⟩
    · intro hne
      rcases newsCachePath_cases ticker before curr_date snapshot with
        ⟨hemp, _⟩ | ⟨_, hsw⟩
      · exact absurd hemp hne
      · rw [heq]; exact hsw
    · intro hemp
      rcases newsCachePath_cases ticker before curr_date snapshot with
        ⟨_, heq2⟩ | ⟨hne, _⟩
      · rw [heq, heq2]
      · exact absurd hemp hne
  · by_cases hr : routingOn config = true
    · cases remote with
      | none =>
        have heq := hfall (Or.inr (Or.inl rfl))
        rcases newsCachePath_cases ticker before curr_date snapshot with
          ⟨_, heq2⟩ | ⟨_, hsw⟩
        · exact Or.inr (Or.inr (by rw [heq, heq2]))
        · exact Or.inr (Or.inl (by rw [heq]; exact hsw))
      | some l =>
        by_cases hl : l = []
        · subst hl
          have heq := hfall (Or.inr (Or.inr rfl))
          rcases newsCachePath_cases ticker before curr_date snapshot with
            ⟨_, heq2⟩ | ⟨_, hsw⟩
          · exact Or.inr (Or.inr (by rw [heq, heq2]))
          · exact Or.inr (Or.inl (by rw [heq]; exact hsw))
        · exact Or.inl ⟨formatRemoteNews l, hreal l hr hl⟩
    · have heq := hfall (Or.inl (by simpa using hr))
      rcases newsCachePath_cases ticker before curr_date snapshot with
        ⟨_, heq2⟩ | ⟨_, hsw⟩
      · exact Or.inr (Or.inr (by rw [heq, heq2]))
      · exact Or.inr (Or.inl (by rw [heq]; exact hsw))

/-- Witness for the C1 theorem: no credential, non-empty cache, the
result carries the cached tag. -/
theorem news_fallback_protocol_witness :
    StartsWith
      (get_finnhub_news "AAPL" "2025-01-01" "2025-01-08"
        ⟨none, true⟩ none (some [("2025-01-02", [⟨"h", "s"⟩])]))
      ("## " ++ "AAPL" ++ " Cached News from " ++ "2025-01-01" ++ " to "
        ++ "2025-01-08" ++ ":\n") := by
  have h := news_fallback_protocol "AAPL" "2025-01-01" "2025-01-08"
    ⟨none, true⟩ none (some [("2025-01-02", [⟨"h", "s"⟩])])
  exact (h.2.1 (Or.inl rfl)).2.1 (by decide)

set_option maxRecDepth 4096 in
/-- Counterexample to claim C3: with a configured credential and a
successful remote insider-sentiment response whose data sequence is
empty, the retriever returns the real-time-tagged report (with no
entries) even though the cache snapshot holds in-range records — it does
not fall back to CacheStore. -/
theorem empty_remote_no_fallback_cex :
    StartsWith
      (get_finnhub_company_insider_sentiment "AAPL" "2025-01-01" "2025-01-08"
        ⟨some "key", true⟩ (some (some []))
        (some [("2025-01-02", [⟨2025, 1, 5, 3⟩])]))
      ("## " ++ "AAPL" ++ " Real-time Insider Sentiment") :=
  ⟨" from " ++ "2025-01-01" ++ " to " ++ "2025-01-08" ++ ":\n" ++ sentiFooter,
    by decide⟩

/-- Amended claim C3: for company news a successful remote response with
an empty article list is falsy and triggers cache fallback; for insider
sentiment and insider transactions the fallback triggers on an
exception, a falsy response, or a response lacking the data field, but a
successful response whose data sequence is present and empty passes the
guard and is returned as a real-time-tagged report with no entries. -/
theorem empty_remote_fallback (ticker before curr_date : String)
    (config : FinnhubConfig)
    (sremote : Option (Option (List SentiRec)))
    (ssnap : Option (List (String × List SentiRec)))
    (tremote : Option (Option (List TransRec)))
    (tsnap : Option (List (String × List TransRec)))
    (nsnap : Option (List (String × List CachedNewsRec))) :
    (get_finnhub_news ticker before curr_date config (some []) nsnap
      = newsCachePath ticker before curr_date nsnap) ∧
    (routingOn config = true →
      get_finnhub_company_insider_sentiment ticker before curr_date config
          (some (some [])) ssnap
        = "## " ++ ticker ++ " Real-time Insider Sentiment from " ++ before
          ++ " to " ++ curr_date ++ ":\n" ++ sentiFooter ∧
      get_finnhub_company_insider_transactions ticker before curr_date config
          (some (some [])) tsnap
        = "## " ++ ticker ++ " Real-time Insider Transactions from " ++ before
          ++ " to " ++ curr_date ++ ":\n" ++ transFooterRemote) ∧
    ((sremote = none ∨ sremote = some none) →
      get_finnhub_company_insider_sentiment ticker before curr_date config
          sremote ssnap = sentiCachePath ticker before curr_date ssnap) ∧
    ((tremote = none ∨ tremote = some none) →
      get_finnhub_company_insider_transactions ticker before curr_date config
          tremote tsnap = transCachePath ticker before curr_date tsnap) := by
  refine ⟨?_, ?_, ?_, ?_⟩
  · cases hb : routingOn config <;> simp [get_finnhub_news, hb]
  · intro hr
    constructor
    · simp [get_finnhub_company_insider_sentiment, hr, concatRender,
        String.append_empty]
    · simp [get_finnhub_company_insider_transactions, hr, dedupBy, dedupByAux,
        concatRender, String.append_empty]
  · intro hcase
    rcases hcase with hrem | hrem <;> subst hrem <;>
      cases hb : routingOn config <;>
        simp [get_finnhub_company_insider_sentiment, hb]
  · intro hcase
    rcases hcase with hrem | hrem <;> subst hrem <;>
      cases hb : routingOn config <;>
        simp [get_finnhub_company_insider_transactions, hb]

/-- Witness for the amended C3 theorem: empty-but-successful remote
sentiment data yields the entry-less real-time report. -/
theorem empty_remote_fallback_witness :
    get_finnhub_company_insider_sentiment "AAPL" "2025-01-01" "2025-01-08"
        ⟨some "k", true⟩ (some (some [])) none
      = "## " ++ "AAPL" ++ " Real-time Insider Sentiment from " ++ "2025-01-01"
        ++ " to " ++ "2025-01-08" ++ ":\n" ++ sentiFooter :=
  ((empty_remote_fallback "AAPL" "2025-01-01" "2025-01-08" ⟨some "k", true⟩
    none none none none none).2.1 rfl).1

set_option maxRecDepth 8192 in
/-- Counterexample to claim C4: on the cached path, two
insider-transaction records sharing (filingDate, name, change) but
differing in share/transactionPrice/transactionCode are BOTH rendered —
the distinctive text of the second record appears in the report, and the
output differs from what the composite-key collapse claimed by the spec
would produce. -/
theorem trans_dedup_key_cex :
    ContainsSub
      (get_finnhub_company_insider_transactions "AAPL" "2025-01-01"
        "2025-01-08" ⟨none, true⟩ none
        (some [("2025-01-02",
          [⟨"2025-01-02", "Jane Doe", -100, 100, 50, "S"⟩,
           ⟨"2025-01-02", "Jane Doe", -100, 200, 55, "P"⟩])]))
      "Shares: 200" ∧
    get_finnhub_company_insider_transactions "AAPL" "2025-01-01" "2025-01-08"
        ⟨none, true⟩ none
        (some [("2025-01-02",
          [⟨"2025-01-02", "Jane Doe", -100, 100, 50, "S"⟩,
           ⟨"2025-01-02", "Jane Doe", -100, 200, 55, "P"⟩])])
      ≠ "## " ++ "AAPL" ++ " Cached Insider Transactions from " ++ "2025-01-01"
        ++ " to " ++ "2025-01-08" ++ ":\n"
        ++ concatRender formatCachedTrans
          (dedupBy transKey
            [⟨"2025-01-02", "Jane Doe", -100, 100, 50, "S"⟩,
             ⟨"2025-01-02", "Jane Doe", -100, 200, 55, "P"⟩])
        ++ transFooterCached := by
  constructor
  · have h2 : ContainsSub
        (formatCachedTrans ⟨"2025-01-02", "Jane Doe", -100, 200, 55, "P"⟩)
        "Shares: 200" :=
      ⟨"### Filing Date: 2025-01-02, Jane Doe:\nChange:-100\n",
       "\nTransaction Price: 55\nTransaction Code: P\n\n", by decide⟩
    have h1 : get_finnhub_company_insider_transactions "AAPL" "2025-01-01"
        "2025-01-08" ⟨none, true⟩ none
        (some [("2025-01-02",
          [⟨"2025-01-02", "Jane Doe", -100, 100, 50, "S"⟩,
           ⟨"2025-01-02", "Jane Doe", -100, 200, 55, "P"⟩])])
      = ("## " ++ "AAPL" ++ " Cached Insider Transactions from " ++ "2025-01-01"
          ++ " to " ++ "2025-01-08" ++ ":\n")
        ++ (formatCachedTrans ⟨"2025-01-02", "Jane Doe", -100, 100, 50, "S"⟩
          ++ (formatCachedTrans ⟨"2025-01-02", "Jane Doe", -100, 200, 55, "P"⟩
            ++ ""))
        ++ transFooterCached := by decide
    rw [h1]
    exact containsSub_append_right _ (containsSub_append_left _
      (containsSub_append_left _ (containsSub_append_right _ h2)))
  · decide

/-- Amended claim C4: on the remote path insider transactions are
deduplicated by the composite key (filingDate, name, change) — records
agreeing on those fields share the key, the surviving records carry
pairwise distinct keys, and the report renders exactly the first-seen
representatives; on the cached path, and for cached insider sentiment,
deduplication is full-record equality, so any record distinct in any
field survives; the remote insider-sentiment path applies no
deduplication at all. -/
theorem insider_dedup_keys (ticker before curr_date : String)
    (config : FinnhubConfig) (entries : List TransRec)
    (sentries : List SentiRec)
    (tsnap : Option (List (String × List TransRec)))
    (ssnap : Option (List (String × List SentiRec))) :
    (routingOn config = true →
      get_finnhub_company_insider_transactions ticker before curr_date config
          (some (some entries)) tsnap
        = "## " ++ ticker ++ " Real-time Insider Transactions from " ++ before
          ++ " to " ++ curr_date ++ ":\n"
          ++ concatRender formatRemoteTrans (dedupBy transKey entries)
          ++ transFooterRemote ∧
      get_finnhub_company_insider_sentiment ticker before curr_date config
          (some (some sentries)) ssnap
        = "## " ++ ticker ++ " Real-time Insider Sentiment from " ++ before
          ++ " to " ++ curr_date ++ ":\n"
          ++ concatRender formatSentiRec sentries ++ sentiFooter) ∧
    (∀ e1 e2 : TransRec, e1.filingDate = e2.filingDate → e1.name = e2.name →
      e1.change = e2.change → transKey e1 = transKey e2) ∧
    ((dedupBy transKey entries).map transKey).Nodup ∧
    (routingOn config = false →
      get_finnhub_company_insider_transactions ticker before curr_date config
          (some (some entries)) tsnap
        = transCachePath ticker before curr_date tsnap) ∧
    (∀ e, e ∈ entries → e ∈ dedupBy (fun x => x) entries) ∧
    (∀ e, e ∈ sentries → e ∈ dedupBy (fun x => x) sentries) := by
  refine ⟨?_, ?_, dedupByAux_keys_nodup transKey entries [], ?_,
    fun e he => mem_dedupBy_id entries e he,
    fun e he => mem_dedupBy_id sentries e he⟩
  · intro hr
    constructor
    · simp [get_finnhub_company_insider_transactions, hr]
    · simp [get_finnhub_company_insider_sentiment, hr]
  · intro e1 e2 h1 h2 h3
    unfold transKey
    rw [h1, h2, h3]
  · intro hr0
    simp [get_finnhub_company_insider_transactions, hr0]

/-- Witness for the amended C4 theorem: the remote path renders the
composite-key deduplication of a concrete record pair. -/
theorem insider_dedup_keys_witness :
    get_finnhub_company_insider_transactions "AAPL" "2025-01-01" "2025-01-08"
        ⟨some "k", true⟩
        (some (some [⟨"2025-01-02", "Jane Doe", -100, 100, 50, "S"⟩,
          ⟨"2025-01-02", "Jane Doe", -100, 200, 55, "P"⟩])) none
      = "## " ++ "AAPL" ++ " Real-time Insider Transactions from "
        ++ "2025-01-01" ++ " to " ++ "2025-01-08" ++ ":\n"
        ++ concatRender formatRemoteTrans
          (dedupBy transKey [⟨"2025-01-02", "Jane Doe", -100, 100, 50, "S"⟩,
            ⟨"2025-01-02", "Jane Doe", -100, 200, 55, "P"⟩])
        ++ transFooterRemote :=
  ((insider_dedup_keys "AAPL" "2025-01-01" "2025-01-08" ⟨some "k", true⟩
    [⟨"2025-01-02", "Jane Doe", -100, 100, 50, "S"⟩,
     ⟨"2025-01-02", "Jane Doe", -100, 200, 55, "P"⟩] [] none none).1 rfl).1

/-- Counterexample to claim C5: a history query whose start date lies
before the snapshot lower bound 2015-01-01 does NOT raise — it returns
the in-range rows silently (here the single row of the snapshot), so
only the end-date side of the range is validated. -/
theorem yfin_lower_bound_cex :
    get_YFin_data [⟨"2015-01-02 00:00:00-05:00", ["1", "2"]⟩] "2014-06-01"
        "2015-01-05"
      = Except.ok [⟨"2015-01-02 00:00:00-05:00", ["1", "2"]⟩] := by
  unfold get_YFin_data
  rw [if_neg (by decide)]
  exact congrArg Except.ok (by decide)

/-- Amended claim C5: an end date at or below the snapshot upper bound
2025-03-25 succeeds with the inclusive date slice (in particular an end
date exactly at the bound); an end date beyond the bound fails hard with
the message naming both bounds of the valid range; the start date is
never validated, so a start before the lower bound 2015-01-01 silently
returns the rows the snapshot has instead of failing. -/
theorem yfin_range_check (snapshot : List PriceRow)
    (start_date end_date : String) :
    (strLe end_date "2025-03-25" = true →
      get_YFin_data snapshot start_date end_date
        = Except.ok (snapshot.filter (fun r =>
            strLe start_date (strTake r.date 10)
              && strLe (strTake r.date 10) end_date))) ∧
    (strLe end_date "2025-03-25" = false →
      get_YFin_data snapshot start_date end_date
        = Except.error ("Get_YFin_Data: " ++ end_date
            ++ " is outside of the data range of 2015-01-01 to 2025-03-25") ∧
      ContainsSub ("Get_YFin_Data: " ++ end_date
          ++ " is outside of the data range of 2015-01-01 to 2025-03-25")
        "2015-01-01" ∧
      ContainsSub ("Get_YFin_Data: " ++ end_date
          ++ " is outside of the data range of 2015-01-01 to 2025-03-25")
        "2025-03-25") := by
  constructor
  · intro h
    unfold get_YFin_data
    rw [if_neg (by rw [h]; simp)]
  · intro h
    refine ⟨?_, ?_, ?_⟩
    · unfold get_YFin_data
      rw [if_pos h]
    · have hlit : (" is outside of the data range of 2015-01-01 to 2025-03-25"
          : String)
          = " is outside of the data range of " ++ "2015-01-01"
            ++ " to 2025-03-25" := rfl
      rw [hlit]
      exact containsSub_append_left _
        ⟨" is outside of the data range of ", " to 2025-03-25",
          by simp [String.append_assoc]⟩
    · have hlit : (" is outside of the data range of 2015-01-01 to 2025-03-25"
          : String)
          = " is outside of the data range of 2015-01-01 to " ++ "2025-03-25"
            ++ "" := by decide
      rw [hlit]
      exact containsSub_append_left _
        ⟨" is outside of the data range of 2015-01-01 to ", "",
          by simp [String.append_assoc]⟩

/-- Witness for the amended C5 theorem: an end date exactly at the upper
bound succeeds; one day beyond fails with a message naming both bounds. -/
theorem yfin_range_check_witness :
    get_YFin_data [⟨"2025-03-25 00:00:00-04:00", ["9"]⟩] "2025-03-01"
        "2025-03-25"
      = Except.ok [⟨"2025-03-25 00:00:00-04:00", ["9"]⟩] ∧
    get_YFin_data [⟨"2025-03-25 00:00:00-04:00", ["9"]⟩] "2025-03-01"
        "2025-03-26"
      = Except.error ("Get_YFin_Data: " ++ "2025-03-26"
          ++ " is outside of the data range of 2015-01-01 to 2025-03-25") ∧
    ContainsSub ("Get_YFin_Data: " ++ "2025-03-26"
        ++ " is outside of the data range of 2015-01-01 to 2025-03-25")
      "2015-01-01" := by
  refine ⟨?_, ?_, ?_⟩
  · have h := (yfin_range_check [⟨"2025-03-25 00:00:00-04:00", ["9"]⟩]
      "2025-03-01" "2025-03-25").1 (by decide)
    rw [h]
    exact congrArg Except.ok (by decide)
  · exact ((yfin_range_check [⟨"2025-03-25 00:00:00-04:00", ["9"]⟩]
      "2025-03-01" "2025-03-26").2 (by decide)).1
  · exact ((yfin_range_check [⟨"2025-03-25 00:00:00-04:00", ["9"]⟩]
      "2025-03-01" "2025-03-26").2 (by decide)).2.1

/-- Counterexample to claim C9: with no credential configured and a
cache snapshot holding profile records for the ticker, the company
profile call still returns the bare no-data message — no CacheStore
query occurs before it. -/
theorem profile_no_cache_fallback_cex :
    get_finnhub_company_profile "AAPL" ⟨none, true⟩ none
        (some [("2025-01-02",
          [⟨"Apple", "Tech", "3000", "US", "USD", "NASDAQ", "1980-12-12",
            "15000", "apple.com", none⟩])])
      = "Company profile data not available for " ++ "AAPL" := rfl

/-- Amended claim C9: for company news, insider sentiment and insider
transactions a failed or skipped remote attempt falls back to
CacheStore; for company profile and basic financials there is no cache
fallback at all — on missing credential, disabled flag, exception,
falsy response, or missing metric field, the call returns the fixed
no-data message directly, and the result never depends on any cache
snapshot contents. -/
theorem profile_financials_no_cache (ticker : String) (config : FinnhubConfig)
    (premote : Option (Option ProfileData))
    (psnap psnap2 : Option (List (String × List ProfileData)))
    (fremote : Option (Option (List (String × String))))
    (fsnap fsnap2 : Option (List (String × List (String × String)))) :
    ((routingOn config = false ∨ premote = none ∨ premote = some none) →
      get_finnhub_company_profile ticker config premote psnap
        = "Company profile data not available for " ++ ticker) ∧
    (get_finnhub_company_profile ticker config premote psnap
      = get_finnhub_company_profile ticker config premote psnap2) ∧
    ((routingOn config = false ∨ fremote = none ∨ fremote = some none) →
      get_finnhub_basic_financials ticker config fremote fsnap
        = "Basic financial metrics not available for " ++ ticker) ∧
    (get_finnhub_basic_financials ticker config fremote fsnap
      = get_finnhub_basic_financials ticker config fremote fsnap2) := by
  refine ⟨?_, rfl, ?_, rfl⟩
  · intro hcase
    rcases hcase with h | h | h
    · simp [get_finnhub_company_profile, h]
    · subst h
      cases hb : routingOn config <;> simp [get_finnhub_company_profile, hb]
    · subst h
      cases hb : routingOn config <;> simp [get_finnhub_company_profile, hb]
  · intro hcase
    rcases hcase with h | h | h
    · simp [get_finnhub_basic_financials, h]
    · subst h
      cases hb : routingOn config <;> simp [get_finnhub_basic_financials, hb]
    · subst h
      cases hb : routingOn config <;> simp [get_finnhub_basic_financials, hb]

/-- Witness for the amended C9 theorem: a disabled feature flag makes
the basic-financials call return its no-data message even though remote
data and a cache snapshot are present. -/
theorem profile_financials_no_cache_witness :
    get_finnhub_basic_financials "MSFT" ⟨some "k", false⟩
        (some (some [("peBasicExclExtraTTM", "30")]))
        (some [("2025-01-02", [("peBasicExclExtraTTM", "30")])])
      = "Basic financial metrics not available for " ++ "MSFT" :=
  (profile_financials_no_cache "MSFT" ⟨some "k", false⟩ none none none
    (some (some [("peBasicExclExtraTTM", "30")]))
    (some [("2025-01-02", [("peBasicExclExtraTTM", "30")])])
    none).2.2.1 (Or.inl rfl)
